import Mathlib

/-!
Verification of `prompting/validators/reward/relevance.py`.

The file embeds the relevance reward composer and its two sub-scorers.
The external embedding encoders (BERT / MPNet forward passes) are black
boxes per the spec, so sub-scorer raw scores appear as abstract functions
`String → String → ℚ` at the composer level, while the scorers' own
arithmetic (RMSE distance, cosine similarity) is embedded over ℝ on
abstract embedding vectors.
-/

namespace Relevance

/-- The event record returned per completion, mirroring the dataclass
`RelevanceRewardEvent` in `relevance.py` (fields `bert_score = None`,
`mpnet_score = None`, `is_filter_model = True`) together with the
inherited `reward` field. Scores are modelled as exact rationals. -/
structure RelevanceRewardEvent where
  reward : ℚ
  bert_score : Option ℚ
  mpnet_score : Option ℚ
  is_filter_model : Bool
  deriving DecidableEq, Repr

/-- Fresh event as built by `RelevanceRewardEvent()` in
`RelevanceRewardModel.reward`. Modelled from the spec: the default
`reward = 1` is inherited from `BaseRewardEvent` in `reward/reward.py`,
a file not under `src/`; the spec fixes it as the accepted sentinel 1.
The remaining defaults are the dataclass defaults in `relevance.py`. -/
def RelevanceRewardEvent.fresh : RelevanceRewardEvent :=
  { reward := 1, bert_score := none, mpnet_score := none, is_filter_model := true }

/-- A sub-scorer as the composer sees it: a `name` property and a
`reward(prompt, completion)` scalar function. The two concrete instances
wrap external encoders, so `score` is abstract here. -/
structure SubScorer where
  name : String
  score : String → String → ℚ

/-- The composer object: `device`, the `models` list and the `bounds`
list set in `RelevanceRewardModel.__init__`. -/
structure RelevanceRewardModel where
  device : String
  models : List SubScorer
  bounds : List ℚ

/-- One iteration of the loop body in `RelevanceRewardModel.reward`:
compute `diff = model.reward(prompt, completion)`, set `reward = 0` when
`diff < bounds[i]`, then record `diff` into `bert_score` or
`mpnet_score` according to `model.name`. -/
def rewardStep (prompt completion : String) (event : RelevanceRewardEvent)
    (mb : SubScorer × ℚ) : RelevanceRewardEvent :=
  let diff := mb.1.score prompt completion
  let event1 := if diff < mb.2 then { event with reward := 0 } else event
  if mb.1.name = "relevance_bert" then { event1 with bert_score := some diff }
  else if mb.1.name = "relevance_mpnet" then { event1 with mpnet_score := some diff }
  else event1

/-- `RelevanceRewardModel.reward`: start from a fresh event and run the
loop over `enumerate(self.models)` with the index-matched bound.  The
`name` argument is passed through unused, as in the source. -/
def RelevanceRewardModel.reward (self : RelevanceRewardModel)
    (prompt completion _name : String) : RelevanceRewardEvent :=
  (self.models.zip self.bounds).foldl (rewardStep prompt completion)
    RelevanceRewardEvent.fresh

/-- `RelevanceRewardModel.get_rewards`: one `self.reward` call per
completion, in input order. -/
def RelevanceRewardModel.get_rewards (self : RelevanceRewardModel)
    (prompt : String) (completions : List String) (name : String) :
    List RelevanceRewardEvent :=
  completions.map fun completion => self.reward prompt completion name

/-- `RelevanceRewardModel.normalize_rewards`: returns its argument. -/
def RelevanceRewardModel.normalize_rewards (_self : RelevanceRewardModel)
    (rewards : List ℚ) : List ℚ :=
  rewards

/-- The composer as configured by `RelevanceRewardModel.__init__`:
`models = [BertRelevanceRewardModel, MpnetRelevenceModel]` and
`bounds = [-0.0246, 0.3]`. The two encoder-backed score functions are
abstract parameters. Modelled from the spec: the `name` properties
`"relevance_bert"` and `"relevance_mpnet"` come from
`RewardModelType` in `config.py`, a file not under `src/`; they are the
exact strings the loop in `RelevanceRewardModel.reward` matches on. -/
def mkRelevanceRewardModel (device : String)
    (bertScore mpnetScore : String → String → ℚ) : RelevanceRewardModel :=
  { device := device
    models := [⟨"relevance_bert", bertScore⟩, ⟨"relevance_mpnet", mpnetScore⟩]
    bounds := [-0.0246, 0.3] }

/-- Full evaluation of one composer call on the configured model: the
returned event has the gated reward, both raw scores recorded, and the
filter flag set. -/
theorem mk_reward_eval (device : String)
    (bertScore mpnetScore : String → String → ℚ)
    (prompt completion name : String) :
    (mkRelevanceRewardModel device bertScore mpnetScore).reward prompt completion name =
      { reward := if bertScore prompt completion < -0.0246 ∨
            mpnetScore prompt completion < 0.3 then 0 else 1
        bert_score := some (bertScore prompt completion)
        mpnet_score := some (mpnetScore prompt completion)
        is_filter_model := true } := by
  by_cases h1 : bertScore prompt completion < -0.0246 <;>
    by_cases h2 : mpnetScore prompt completion < 0.3 <;>
      simp [mkRelevanceRewardModel, RelevanceRewardModel.reward, rewardStep,
        RelevanceRewardEvent.fresh, h1, h2]

/-- C1: for every (prompt, completion) pair scored by
`RelevanceRewardModel.reward`, the returned event's reward is 0 exactly
when `bert_score < -0.0246` or `mpnet_score < 0.3`, and 1 otherwise; in
particular a raw score equal to its threshold does not reject, and the
equation covers all four combinations of the two gate outcomes. -/
theorem C1_reward_truth_table (device : String)
    (bertScore mpnetScore : String → String → ℚ)
    (prompt completion name : String) :
    ((mkRelevanceRewardModel device bertScore mpnetScore).reward
        prompt completion name).reward =
      if bertScore prompt completion < -0.0246 ∨
          mpnetScore prompt completion < 0.3 then 0 else 1 := by
  rw [mk_reward_eval]

/-- C2: the event's reward starts at the accepted sentinel 1 before any
sub-scorer runs, it is only overwritten to 0 by an explicit threshold
failure, and at return it is always exactly 0 or 1. -/
theorem C2_reward_sentinel :
    RelevanceRewardEvent.fresh.reward = 1 ∧
    ∀ (device : String) (bertScore mpnetScore : String → String → ℚ)
      (prompt completion name : String),
      (((mkRelevanceRewardModel device bertScore mpnetScore).reward
          prompt completion name).reward = 0 ∨
        ((mkRelevanceRewardModel device bertScore mpnetScore).reward
          prompt completion name).reward = 1) ∧
      (((mkRelevanceRewardModel device bertScore mpnetScore).reward
          prompt completion name).reward = 0 →
        bertScore prompt completion < -0.0246 ∨
          mpnetScore prompt completion < 0.3) := by
  refine ⟨rfl, fun device bertScore mpnetScore prompt completion name => ?_⟩
  rw [mk_reward_eval]
  by_cases h : bertScore prompt completion < -0.0246 ∨
      mpnetScore prompt completion < 0.3 <;> simp [h]

/-- C2 witness: a concrete run where the reward is 0, and the threshold
failure it implies. -/
theorem C2_reward_sentinel_witness :
    (-1 : ℚ) < -0.0246 ∨ (1 : ℚ) < 0.3 :=
  (C2_reward_sentinel.2 "cpu" (fun _ _ => -1) (fun _ _ => 1)
    "p" "c" "relevance").2 (by rw [mk_reward_eval]; norm_num)

/-- One loop iteration never restores an already-rejected reward: the
body only ever writes 0 into `reward`. -/
theorem rewardStep_keeps_zero (prompt completion : String)
    (event : RelevanceRewardEvent) (mb : SubScorer × ℚ)
    (h : event.reward = 0) :
    (rewardStep prompt completion event mb).reward = 0 := by
  unfold rewardStep
  by_cases h1 : mb.1.score prompt completion < mb.2 <;>
    by_cases h2 : mb.1.name = "relevance_bert" <;>
      by_cases h3 : mb.1.name = "relevance_mpnet" <;>
        simp [h1, h2, h3, h]

/-- C3: the rejection latch. Once an intermediate event carries reward 0,
folding any further sub-scorers over it can never bring the reward back
to 1; in particular, on the configured composer, a Token-Distance failure
forces reward 0 even when the later Sentence-Similarity score clears its
own threshold. -/
theorem C3_latch :
    (∀ (prompt completion : String) (event : RelevanceRewardEvent)
       (mbs : List (SubScorer × ℚ)), event.reward = 0 →
       (mbs.foldl (rewardStep prompt completion) event).reward = 0) ∧
    ∀ (device : String) (bertScore mpnetScore : String → String → ℚ)
      (prompt completion name : String),
      bertScore prompt completion < -0.0246 →
      0.3 ≤ mpnetScore prompt completion →
      ((mkRelevanceRewardModel device bertScore mpnetScore).reward
        prompt completion name).reward = 0 := by
  constructor
  · intro prompt completion event mbs
    induction mbs generalizing event with
    | nil => intro h; simpa using h
    | cons mb rest ih =>
      intro h
      exact ih _ (rewardStep_keeps_zero prompt completion event mb h)
  · intro device bertScore mpnetScore prompt completion name hb _hm
    rw [mk_reward_eval]
    simp [hb]

/-- C3 witness: with the intermediate event already rejected, a later
scorer that clears its bound leaves the reward at 0; and concretely on
the composer, a failing bert score with a passing mpnet score gives
reward 0. -/
theorem C3_latch_witness :
    (([(⟨"relevance_mpnet", fun _ _ => 1⟩, (0.3 : ℚ))].foldl
        (rewardStep "p" "c")
        { reward := 0, bert_score := some (-1), mpnet_score := none,
          is_filter_model := true }).reward = 0) ∧
    ((mkRelevanceRewardModel "cpu" (fun _ _ => -1) (fun _ _ => 1)).reward
        "p" "c" "relevance").reward = 0 :=
  ⟨C3_latch.1 "p" "c" _ _ rfl,
   C3_latch.2 "cpu" (fun _ _ => -1) (fun _ _ => 1) "p" "c" "relevance"
     (by norm_num) (by norm_num)⟩

/-- C4: both sub-scorers run and their raw scores are recorded into
`bert_score` and `mpnet_score` unconditionally, whatever the threshold
outcomes are. -/
theorem C4_scores_recorded (device : String)
    (bertScore mpnetScore : String → String → ℚ)
    (prompt completion name : String) :
    ((mkRelevanceRewardModel device bertScore mpnetScore).reward
        prompt completion name).bert_score = some (bertScore prompt completion) ∧
    ((mkRelevanceRewardModel device bertScore mpnetScore).reward
        prompt completion name).mpnet_score = some (mpnetScore prompt completion) := by
  rw [mk_reward_eval]
  exact ⟨rfl, rfl⟩

/-- C5: `get_rewards` returns exactly one event per completion,
index-aligned and order-preserving; on the empty list it returns the
empty list. -/
theorem C5_get_rewards_aligned (self : RelevanceRewardModel)
    (prompt : String) (completions : List String) (name : String) :
    (self.get_rewards prompt completions name).length = completions.length ∧
    (∀ i : ℕ, (self.get_rewards prompt completions name)[i]? =
      (completions[i]?).map fun completion => self.reward prompt completion name) ∧
    self.get_rewards prompt [] name = [] := by
  refine ⟨?_, fun i => ?_, rfl⟩
  · simp [RelevanceRewardModel.get_rewards]
  · simp [RelevanceRewardModel.get_rewards]

/-- C8: `normalize_rewards` is the identity: it returns its input
unchanged, with no rescaling. -/
theorem C8_normalize_id (self : RelevanceRewardModel) (rewards : List ℚ) :
    self.normalize_rewards rewards = rewards :=
  rfl

/-- C9: every event produced by the composer has `is_filter_model` true,
both per completion and across a whole `get_rewards` batch. -/
theorem C9_is_filter_model (device : String)
    (bertScore mpnetScore : String → String → ℚ)
    (prompt completion name : String) (completions : List String) :
    ((mkRelevanceRewardModel device bertScore mpnetScore).reward
        prompt completion name).is_filter_model = true ∧
    ((mkRelevanceRewardModel device bertScore mpnetScore).get_rewards
        prompt completions name).all (fun e => e.is_filter_model) = true := by
  constructor
  · rw [mk_reward_eval]
  · simp only [RelevanceRewardModel.get_rewards, List.all_eq_true]
    intro e he
    obtain ⟨c, _, rfl⟩ := List.mem_map.1 he
    rw [mk_reward_eval]

/-- `BertRelevanceRewardModel.reward`: the source computes
`diff = ((completion_embedding - prompt_embedding) ** 2).mean() ** 0.5`
and returns `-diff`. The two embeddings are the pooled, L2-normalized
outputs of `get_embedding` (external encoder), abstracted as vectors in
ℝ^n; the componentwise mean is the sum divided by the dimension. -/
noncomputable def BertRelevanceRewardModel.reward (n : ℕ)
    (completion_embedding prompt_embedding : Fin n → ℝ) : ℝ :=
  -(Real.sqrt ((∑ i, (completion_embedding i - prompt_embedding i) ^ 2) / n))

/-- C6: the Token-Distance score is the negated root-mean-square
difference of the two embeddings; it is 0 when they are identical,
strictly negative when they differ, and unbounded below. -/
theorem C6_bert_rmse (n : ℕ) (ce pe : Fin n → ℝ) :
    BertRelevanceRewardModel.reward n ce pe =
      -(Real.sqrt ((∑ i, (ce i - pe i) ^ 2) / n)) ∧
    (ce = pe → BertRelevanceRewardModel.reward n ce pe = 0) ∧
    (ce ≠ pe → BertRelevanceRewardModel.reward n ce pe < 0) ∧
    ∀ B : ℝ, ∃ (m : ℕ) (ce' pe' : Fin m → ℝ),
      BertRelevanceRewardModel.reward m ce' pe' < B := by
  refine ⟨rfl, ?_, ?_, ?_⟩
  · rintro rfl
    simp [BertRelevanceRewardModel.reward]
  · intro hne
    obtain ⟨i, hi⟩ := Function.ne_iff.1 hne
    have hterm : 0 < (ce i - pe i) ^ 2 := sq_pos_of_ne_zero (sub_ne_zero.2 hi)
    have hsum : 0 < ∑ j, (ce j - pe j) ^ 2 :=
      Finset.sum_pos' (fun j _ => sq_nonneg _) ⟨i, Finset.mem_univ i, hterm⟩
    have hn : (0 : ℝ) < n := by exact_mod_cast i.pos
    have hq : 0 < (∑ j, (ce j - pe j) ^ 2) / n := div_pos hsum hn
    have := Real.sqrt_pos.2 hq
    unfold BertRelevanceRewardModel.reward
    linarith
  · intro B
    refine ⟨1, fun _ => |B| + 1, fun _ => 0, ?_⟩
    have habs : 0 ≤ |B| + 1 := by positivity
    have hval : BertRelevanceRewardModel.reward 1 (fun _ => |B| + 1)
        (fun _ => 0) = -(|B| + 1) := by
      unfold BertRelevanceRewardModel.reward
      rw [Fin.sum_univ_one]
      simp [Real.sqrt_sq habs]
    rw [hval]
    have := neg_abs_le B
    linarith

/-- C6 witness: concrete instances of the identical, different and
unbounded cases. -/
theorem C6_bert_rmse_witness :
    BertRelevanceRewardModel.reward 2 (fun _ => 1) (fun _ => 1) = 0 ∧
    BertRelevanceRewardModel.reward 1 (fun _ => 1) (fun _ => 0) < 0 :=
  ⟨(C6_bert_rmse 2 (fun _ => 1) (fun _ => 1)).2.1 rfl,
   (C6_bert_rmse 1 (fun _ => 1) (fun _ => 0)).2.2.1
     (fun h => one_ne_zero (congrFun h 0))⟩

/-- `pairwise_cosine_similarity` from torchmetrics on two single-vector
batches: the dot product divided by the product of the Euclidean norms
of the inputs (here with Lean's division-by-zero-is-zero convention in
place of the library's epsilon clamp). -/
noncomputable def pairwise_cosine_similarity (n : ℕ) (u v : Fin n → ℝ) : ℝ :=
  (∑ i, u i * v i) / (Real.sqrt (∑ i, u i ^ 2) * Real.sqrt (∑ i, v i ^ 2))

/-- `MpnetRelevenceModel.reward`: the source returns
`torch.abs(pairwise_cosine_similarity(prompt_embed, embeddings)).item()`
on the two L2-normalized sentence embeddings produced by
`get_embeddings` (external encoder), abstracted as vectors in ℝ^n. -/
noncomputable def MpnetRelevenceModel.reward (n : ℕ)
    (prompt_embed embeddings : Fin n → ℝ) : ℝ :=
  |pairwise_cosine_similarity n prompt_embed embeddings|

/-- C7: the Sentence-Similarity score is the absolute value of the
pairwise cosine similarity of the two embeddings, and it always lies in
the closed interval from 0 to 1. -/
theorem C7_mpnet_bounds (n : ℕ) (u v : Fin n → ℝ) :
    MpnetRelevenceModel.reward n u v = |pairwise_cosine_similarity n u v| ∧
    0 ≤ MpnetRelevenceModel.reward n u v ∧
    MpnetRelevenceModel.reward n u v ≤ 1 := by
  refine ⟨rfl, abs_nonneg _, ?_⟩
  have hA : (0 : ℝ) ≤ ∑ i, u i ^ 2 := Finset.sum_nonneg fun i _ => sq_nonneg _
  have key : |∑ i, u i * v i| ≤
      Real.sqrt (∑ i, u i ^ 2) * Real.sqrt (∑ i, v i ^ 2) := by
    calc |∑ i, u i * v i| = Real.sqrt ((∑ i, u i * v i) ^ 2) :=
          (Real.sqrt_sq_eq_abs _).symm
      _ ≤ Real.sqrt ((∑ i, u i ^ 2) * ∑ i, v i ^ 2) :=
          Real.sqrt_le_sqrt (Finset.sum_mul_sq_le_sq_mul_sq Finset.univ u v)
      _ = Real.sqrt (∑ i, u i ^ 2) * Real.sqrt (∑ i, v i ^ 2) :=
          Real.sqrt_mul hA _
  unfold MpnetRelevenceModel.reward pairwise_cosine_similarity
  rw [abs_div,
    abs_of_nonneg (mul_nonneg (Real.sqrt_nonneg _) (Real.sqrt_nonneg _))]
  exact div_le_one_of_le₀ key
    (mul_nonneg (Real.sqrt_nonneg _) (Real.sqrt_nonneg _))

/-- State-passing form of `RelevanceRewardModel.reward`: the tuple
carries the event together with the post-call object and the post-call
argument values. The method body reads `self.models`, `self.bounds` and
the string arguments and contains no assignment to any of them, so the
post-call components are exactly the values the body finished with. -/
def RelevanceRewardModel.rewardCall (self : RelevanceRewardModel)
    (prompt completion name : String) :
    RelevanceRewardEvent × RelevanceRewardModel × String × String × String :=
  ((self.models.zip self.bounds).foldl (rewardStep prompt completion)
      RelevanceRewardEvent.fresh,
    self, prompt, completion, name)

/-- State-passing form of `RelevanceRewardModel.get_rewards`, with the
post-call object and arguments alongside the event list. -/
def RelevanceRewardModel.getRewardsCall (self : RelevanceRewardModel)
    (prompt : String) (completions : List String) (name : String) :
    List RelevanceRewardEvent × RelevanceRewardModel × String ×
      List String × String :=
  (completions.map (fun completion => self.reward prompt completion name),
    self, prompt, completions, name)

/-- C10: scoring is read-only on the composer's configuration: after a
`reward` or `get_rewards` call the `models`, `bounds` and `device`
fields are unchanged, the string arguments are unchanged, and the
returned values agree with the pure scoring functions. -/
theorem C10_frame (self : RelevanceRewardModel)
    (prompt completion name : String) (completions : List String) :
    ((self.rewardCall prompt completion name).2.1.models = self.models ∧
     (self.rewardCall prompt completion name).2.1.bounds = self.bounds ∧
     (self.rewardCall prompt completion name).2.1.device = self.device ∧
     (self.rewardCall prompt completion name).2.2.1 = prompt ∧
     (self.rewardCall prompt completion name).2.2.2.1 = completion ∧
     (self.rewardCall prompt completion name).1 =
       self.reward prompt completion name) ∧
    ((self.getRewardsCall prompt completions name).2.1 = self ∧
     (self.getRewardsCall prompt completions name).2.2.1 = prompt ∧
     (self.getRewardsCall prompt completions name).2.2.2.1 = completions ∧
     (self.getRewardsCall prompt completions name).1 =
       self.get_rewards prompt completions name) :=
  ⟨⟨rfl, rfl, rfl, rfl, rfl, rfl⟩, ⟨rfl, rfl, rfl, rfl⟩⟩

end Relevance
